import Mathlib

/-!
# Verification of the streaming Excel partition engine

Shallow embedding of `utils/excel_splitter.py` (class `ExcelSplitter` and its
module-level entry points).  Python machinery is modelled as follows:

* A spreadsheet cell is `Cell` (Python `None`, strings, integers); Python
  truthiness of a cell is `Cell.truthy`.
* The external `group_manager.get_groups_for_city` service is an oracle
  `resolve : Nat → Cell → List String` indexed by the call number, since the
  external service is opaque and may answer differently on repeated calls
  with the same key (its caching/latency behaviour is outside the core).
  The engine issues exactly one lookup per row, so the call index equals the
  row index.
* Filesystem effects that can raise (creating a workbook in
  `_ensure_group_writer`, closing one in `_finalize`) are modelled by the
  environment flags `ensureOk` / `closeOk`; fallible steps return `Except`.
* Python dicts keyed by group id (`writers`, `sheets`, `row_counts`) become
  insertion-ordered association lists; the `unmatched_cities` set becomes a
  duplicate-free list.
* The dict returned by `run` becomes the structure `RunResult`; keys that the
  failure branch omits (`matched_rows`, `unmatched_cities`, `stats`) are
  `Option` fields, `none` meaning the key is absent.
-/

namespace ExcelSplitter

/-- A scalar spreadsheet cell value: Python `None`, a string, or a number. -/
inductive Cell where
  | none : Cell
  | str : String → Cell
  | num : Int → Cell
deriving DecidableEq, Repr

/-- Python truthiness of a cell: `None`, `""` and `0` are falsy. -/
def Cell.truthy : Cell → Bool
  | Cell.none => false
  | Cell.str s => s ≠ ""
  | Cell.num n => n ≠ 0

/-- A data row: an ordered sequence of cells, as read by `iter_rows`. -/
abbrev Row := List Cell

/-- Lookup in an insertion-ordered association list (a Python dict). -/
def alookup {α : Type} (l : List (String × α)) (k : String) : Option α :=
  (l.find? (fun p => p.1 = k)).map (fun p => p.2)

/-- Update the value stored at key `k` (no-op when `k` is absent). -/
def aupdate {α : Type} (l : List (String × α)) (k : String) (f : α → α) :
    List (String × α) :=
  l.map (fun p => if p.1 = k then (p.1, f p.2) else p)

/-- Model of Python `set.add`: append an element unless already present. -/
def insertNew {α : Type} [DecidableEq α] (l : List α) (a : α) : List α :=
  if a ∈ l then l else l ++ [a]

/-- The environment of one run: the caller-supplied header, the external
resolver oracle, the naming service, and which filesystem operations
succeed.  `resolve i c` is the answer of the `i`-th
`get_groups_for_city` call, made with key `c`. -/
structure Env where
  headers : List String
  resolve : Nat → Cell → List String
  groupFilename : String → String
  outputDir : String
  ensureOk : String → Bool
  closeOk : String → Bool

/-- Runtime state of an `ExcelSplitter` instance: the per-group writer pool
(`writers`, `sheets`, `row_counts`), the statistics counters, and the number
of resolver calls made so far. -/
structure State where
  writers : List String
  sheets : List (String × List Row)
  row_counts : List (String × Nat)
  matched_rows : Nat
  unmatched_cities : List Cell
  callIdx : Nat
deriving DecidableEq, Repr

/-- The state built by `__init__`: empty pool, zeroed counters. -/
def initState : State :=
  { writers := []
    sheets := []
    row_counts := []
    matched_rows := 0
    unmatched_cities := []
    callIdx := 0 }

/-- Per-group entry of `output_files` in the result dict. -/
structure OutputFileInfo where
  filename : String
  path : String
  row_count : Nat
deriving DecidableEq, Repr

/-- The dict returned by `ExcelSplitter.run`.  `Option` fields model keys
that only one branch of `run` puts into the dict: the failure branch omits
`matched_rows`, `unmatched_cities` and `stats`, the success branch omits
`error`. -/
structure RunResult where
  success : Bool
  total_rows : Nat
  matched_rows : Option Nat
  output_files : List (String × OutputFileInfo)
  unmatched_cities : Option (List Cell)
  stats : Option (List (String × Nat))
  error : Option String
deriving DecidableEq, Repr

/-- The failure dict built in the `except` branch of `run`:
`{"success": False, "error": e, "total_rows": 0, "output_files": {}}`. -/
def mkFailure (e : String) : RunResult :=
  { success := false
    total_rows := 0
    matched_rows := Option.none
    output_files := []
    unmatched_cities := Option.none
    stats := Option.none
    error := some e }

/-- Model of `_ensure_group_writer`: return unchanged when a writer already exists;
otherwise create the workbook and sheet, write the header row at index 0,
and register the group with cursor `row_counts[g] = 1`.  Workbook creation
can raise (modelled by `ensureOk`), which propagates to the caller. -/
def ensureGroupWriter (env : Env) (st : State) (g : String) :
    Except String State :=
  if g ∈ st.writers then Except.ok st
  else if env.ensureOk g then
    Except.ok
      { st with
        writers := st.writers ++ [g]
        sheets := st.sheets ++ [(g, [env.headers.map Cell.str])]
        row_counts := st.row_counts ++ [(g, 1)] }
  else Except.error ("cannot create workbook for group " ++ g)

/-- The body of the `for g in groups` loop in `_process_row`: ensure the
writer, append the row to the sheet at the cursor, advance the cursor,
bump the matched counter. -/
def writeToGroup (env : Env) (st : State) (row : Row) (g : String) :
    Except String State := do
  let st ← ensureGroupWriter env st g
  Except.ok
    { st with
      sheets := aupdate st.sheets g (fun rs => rs ++ [row])
      row_counts := aupdate st.row_counts g (fun n => n + 1)
      matched_rows := st.matched_rows + 1 }

/-- Key extraction: `city = row[1] if len(row) > 1 else None`. -/
def rowCity (row : Row) : Cell :=
  if h : 1 < row.length then row.get ⟨1, h⟩ else Cell.none

/-- Model of `_process_row`: extract the key, query the resolver (unconditionally —
the code performs the lookup even for an absent key), record an unmatched
key when the answer is empty and the key truthy, then fan the row out to
every returned group.  An exception in the loop propagates. -/
def processRow (env : Env) (st : State) (row : Row) :
    Except String State := do
  let city := rowCity row
  let groups := env.resolve st.callIdx city
  let st :=
    { st with
      callIdx := st.callIdx + 1
      unmatched_cities :=
        if groups.isEmpty ∧ city.truthy then
          insertNew st.unmatched_cities city
        else st.unmatched_cities }
  groups.foldlM (fun s g => writeToGroup env s row g) st

/-- The row loop of `run`: process each data row in order, counting
`processed_rows` once per row. -/
def processAll (env : Env) (st : State) (rows : List Row) :
    Except String State :=
  rows.foldlM (processRow env) st

/-- The `output_files` dict entry built for group `g` by `_finalize` after
its workbook closed: filename, path under the output directory, and
`row_count = row_counts[g] - 1` (cursor minus one). -/
def outputEntry (env : Env) (st : State) (g : String) : OutputFileInfo :=
  { filename := env.groupFilename g
    path := env.outputDir ++ "/" ++ env.groupFilename g
    row_count := (alookup st.row_counts g).getD 0 - 1 }

/-- Model of `_finalize`: close every writer in turn; a close failure for one
group is logged and skipped (`closeOk g = false` omits the group from
`output_files` but does not stop the loop), then the success dict is built
with `row_count = cursor − 1` per closed group and `stats = row_counts`. -/
def finalize (env : Env) (st : State) (processed : Nat) : RunResult :=
  let output_files := st.writers.filterMap
    (fun g => if env.closeOk g then some (g, outputEntry env st g)
              else Option.none)
  { success := true
    total_rows := processed
    matched_rows := some st.matched_rows
    output_files := output_files
    unmatched_cities := some st.unmatched_cities
    stats := some st.row_counts
    error := Option.none }

/-- Model of `ExcelSplitter.run`: open the input (`input = Option.none` models
`load_workbook` raising, e.g. a missing file), run the row loop, finalize on
success; any exception reaching the top level yields the failure dict. -/
def run (env : Env) (input : Option (List Row)) : RunResult :=
  match input with
  | Option.none => mkFailure "No such file or directory"
  | some rows =>
    match processAll env initState rows with
    | Except.error e => mkFailure e
    | Except.ok st => finalize env st rows.length

/-- Model of `split_excel_by_groups` and its sync wrapper: construct a
splitter on a fresh state and run it. -/
def split_excel_by_groups (env : Env) (input : Option (List Row)) :
    RunResult :=
  run env input

/-- Specification-side count: the number of input rows whose resolved group
set contains `g`, when the first row's lookup is the `c`-th resolver call. -/
def matchCount (env : Env) (c : Nat) (rows : List Row) (g : String) : Nat :=
  match rows with
  | [] => 0
  | r :: rs =>
    (if g ∈ env.resolve c (rowCity r) then 1 else 0) + matchCount env (c + 1) rs g

/-- Writer-pool well-formedness: the groups registered in `writers` are
exactly those with a `row_counts` entry, and every cursor is at least 1. -/
def WF (st : State) : Prop :=
  ∀ g, (g ∈ st.writers ↔ (alookup st.row_counts g).isSome) ∧
       ∀ v, alookup st.row_counts g = some v → 1 ≤ v

/-- Environment of the three-row acceptance scenario: headers Id/City/Value,
resolver answering EU, then nothing, then EU and VIP; all file operations
succeed. -/
def envScenario : Env :=
  { headers := ["Id", "City", "Value"]
    resolve := fun i _ =>
      match i with
      | 0 => ["EU"]
      | 1 => []
      | 2 => ["EU", "VIP"]
      | _ => []
    groupFilename := fun g => g ++ ".xlsx"
    outputDir := "out"
    ensureOk := fun _ => true
    closeOk := fun _ => true }

/-- The three data rows of the acceptance scenario. -/
def rowsScenario : List Row :=
  [[Cell.num 1, Cell.str "Paris", Cell.num 10],
   [Cell.num 2, Cell.str "Lagos", Cell.num 5],
   [Cell.num 3, Cell.str "Paris", Cell.num 7]]

/-- Environment where creating the workbook for group B fails while group A
is fine; row 0 resolves to B, row 1 to A. -/
def envWriterFail : Env :=
  { headers := ["Id", "City"]
    resolve := fun i _ => match i with | 0 => ["B"] | 1 => ["A"] | _ => []
    groupFilename := fun g => g ++ ".xlsx"
    outputDir := "out"
    ensureOk := fun g => g ≠ "B"
    closeOk := fun _ => true }

/-- The two rows fed to `envWriterFail`. -/
def rowsWriterFail : List Row :=
  [[Cell.num 1, Cell.str "X"], [Cell.num 2, Cell.str "Y"]]

/-- Environment whose resolver claims group G for the first call even when
the key is absent; all file operations succeed. -/
def envAbsentKey : Env :=
  { headers := ["Id", "City"]
    resolve := fun i _ => match i with | 0 => ["G"] | _ => []
    groupFilename := fun g => g ++ ".xlsx"
    outputDir := "out"
    ensureOk := fun _ => true
    closeOk := fun _ => true }

/-- The acceptance-scenario environment where closing group EU's workbook
fails. -/
def envCloseFail : Env :=
  { envScenario with closeOk := fun g => g ≠ "EU" }

/-- The intermediate state of `_process_row` after the unmatched-key
bookkeeping and the resolver call, before the fan-out loop. -/
def midState (env : Env) (st : State) (row : Row) : State :=
  { st with
    callIdx := st.callIdx + 1
    unmatched_cities :=
      if (env.resolve st.callIdx (rowCity row)).isEmpty ∧
          (rowCity row).truthy then
        insertNew st.unmatched_cities (rowCity row)
      else st.unmatched_cities }

/-- Observer: look a group up in the `stats` dict of a result (the empty
dict when the `stats` key is absent). -/
def statsLookup (r : RunResult) (g : String) : Option Nat :=
  alookup (r.stats.getD []) g

/-- The splitter state after processing the three scenario rows. -/
def stScenario : State :=
  { writers := ["EU", "VIP"]
    sheets := [("EU",
        [[Cell.str "Id", Cell.str "City", Cell.str "Value"],
         [Cell.num 1, Cell.str "Paris", Cell.num 10],
         [Cell.num 3, Cell.str "Paris", Cell.num 7]]),
      ("VIP",
        [[Cell.str "Id", Cell.str "City", Cell.str "Value"],
         [Cell.num 3, Cell.str "Paris", Cell.num 7]])]
    row_counts := [("EU", 3), ("VIP", 2)]
    matched_rows := 3
    unmatched_cities := [Cell.str "Lagos"]
    callIdx := 3 }

/-- The splitter state after processing the single key-less row under
`envAbsentKey`. -/
def stAbsent : State :=
  { writers := ["G"]
    sheets := [("G", [[Cell.str "Id", Cell.str "City"], [Cell.num 1]])]
    row_counts := [("G", 2)]
    matched_rows := 1
    unmatched_cities := []
    callIdx := 1 }

/-- The output descriptor the scenario run reports for group EU. -/
def euInfo : OutputFileInfo :=
  { filename := "EU.xlsx", path := "out/EU.xlsx", row_count := 2 }

/-- The output descriptor the scenario run reports for group VIP. -/
def vipInfo : OutputFileInfo :=
  { filename := "VIP.xlsx", path := "out/VIP.xlsx", row_count := 1 }

/-- The splitter state right after a writer for group EU has been created
under `envScenario`. -/
def stEnsured : State :=
  { writers := ["EU"]
    sheets := [("EU", [[Cell.str "Id", Cell.str "City", Cell.str "Value"]])]
    row_counts := [("EU", 1)]
    matched_rows := 0
    unmatched_cities := []
    callIdx := 0 }

end ExcelSplitter

open ExcelSplitter

/-! ## Association-list lemmas -/

theorem alookup_nil {α : Type} (k : String) :
    alookup ([] : List (String × α)) k = Option.none := rfl

theorem alookup_cons {α : Type} (p : String × α) (l : List (String × α))
    (k : String) :
    alookup (p :: l) k = if p.1 = k then some p.2 else alookup l k := by
  by_cases h : p.1 = k <;> simp [alookup, List.find?_cons, h]

theorem alookup_aupdate_self {α : Type} (l : List (String × α)) (k : String)
    (f : α → α) :
    alookup (aupdate l k f) k = (alookup l k).map f := by
  induction l with
  | nil => rfl
  | cons p l ih =>
    by_cases h : p.1 = k
    · simp [aupdate, alookup_cons, h]
    · simpa [aupdate, alookup_cons, h] using ih

theorem alookup_aupdate_ne {α : Type} (l : List (String × α)) (k k' : String)
    (h : k' ≠ k) (f : α → α) :
    alookup (aupdate l k f) k' = alookup l k' := by
  induction l with
  | nil => rfl
  | cons p l ih =>
    have hstep : aupdate (p :: l) k f =
        (if p.1 = k then (p.1, f p.2) else p) :: aupdate l k f := rfl
    rw [hstep, alookup_cons, alookup_cons]
    by_cases hp : p.1 = k
    · subst hp
      simp [Ne.symm h, ih]
    · simp only [if_neg hp]
      by_cases hp' : p.1 = k' <;> simp [hp', ih]

theorem alookup_append_self {α : Type} (l : List (String × α)) (k : String)
    (v : α) (h : alookup l k = Option.none) :
    alookup (l ++ [(k, v)]) k = some v := by
  induction l with
  | nil => simp [alookup_cons]
  | cons p l ih =>
    rw [List.cons_append, alookup_cons] at *
    by_cases hp : p.1 = k
    · simp [hp] at h
    · simp [hp] at h ⊢
      exact ih h

theorem alookup_append_ne {α : Type} (l : List (String × α)) (k k' : String)
    (v : α) (h : k' ≠ k) :
    alookup (l ++ [(k, v)]) k' = alookup l k' := by
  induction l with
  | nil => simp [alookup_cons, Ne.symm h, alookup_nil]
  | cons p l ih =>
    rw [List.cons_append, alookup_cons, alookup_cons]
    by_cases hp : p.1 = k' <;> simp [hp, ih]

theorem wf_initState : WF initState := by
  intro g
  constructor
  · simp [initState, alookup_nil]
  · intro v hv
    simp [initState, alookup_nil] at hv

/-! ## Effects of a single group write -/

theorem writeToGroup_ok_basic (env : Env) (st : State) (row : Row)
    (g : String) (st' : State)
    (h : writeToGroup env st row g = Except.ok st') :
    st'.unmatched_cities = st.unmatched_cities ∧
    st'.callIdx = st.callIdx ∧
    (∀ g', g' ∈ st'.writers ↔ g' ∈ st.writers ∨ g' = g) ∧
    (∀ g', g' ≠ g → alookup st'.row_counts g' = alookup st.row_counts g') := by
  unfold writeToGroup ensureGroupWriter at h
  by_cases hw : g ∈ st.writers
  · rw [if_pos hw] at h
    simp only [Bind.bind, Except.bind, Except.ok.injEq] at h
    subst h
    refine ⟨rfl, rfl, ?_, ?_⟩
    · intro g'
      exact ⟨Or.inl, fun hc => hc.elim id (fun e => e ▸ hw)⟩
    · intro g' hne
      exact alookup_aupdate_ne st.row_counts g g' hne _
  · rw [if_neg hw] at h
    by_cases he : env.ensureOk g
    · rw [if_pos he] at h
      simp only [Bind.bind, Except.bind, Except.ok.injEq] at h
      subst h
      refine ⟨rfl, rfl, ?_, ?_⟩
      · intro g'
        simp
      · intro g' hne
        rw [alookup_aupdate_ne _ g g' hne, alookup_append_ne _ g g' 1 hne]
    · rw [if_neg he] at h
      simp only [Bind.bind, Except.bind] at h
      exact absurd h (by simp)

theorem WF_extend (g : String) (st st' : State) (m : Nat)
    (hwr : ∀ g', g' ∈ st'.writers ↔ g' ∈ st.writers ∨ g' = g)
    (hself : alookup st'.row_counts g = some m) (hm : 1 ≤ m)
    (hother : ∀ g', g' ≠ g →
      alookup st'.row_counts g' = alookup st.row_counts g')
    (hwf : WF st) : WF st' := by
  intro g'
  by_cases hg' : g' = g
  · subst hg'
    refine ⟨⟨fun _ => ?_, fun _ => (hwr g').mpr (Or.inr rfl)⟩, ?_⟩
    · rw [hself]
      rfl
    · intro v hv
      rw [hself] at hv
      injection hv with hv
      omega
  · refine ⟨?_, ?_⟩
    · rw [hother g' hg']
      constructor
      · intro hmem
        exact (hwf g').1.mp (((hwr g').mp hmem).resolve_right hg')
      · intro hs
        exact (hwr g').mpr (Or.inl ((hwf g').1.mpr hs))
    · intro v hv
      rw [hother g' hg'] at hv
      exact (hwf g').2 v hv

theorem writeToGroup_ok_cnt (env : Env) (st : State) (row : Row)
    (g : String) (st' : State) (hwf : WF st)
    (h : writeToGroup env st row g = Except.ok st') :
    alookup st'.row_counts g = some ((alookup st.row_counts g).getD 1 + 1) ∧
    WF st' := by
  obtain ⟨-, -, hwr, hother⟩ := writeToGroup_ok_basic env st row g st' h
  have hself : alookup st'.row_counts g =
      some ((alookup st.row_counts g).getD 1 + 1) := by
    unfold writeToGroup ensureGroupWriter at h
    by_cases hw : g ∈ st.writers
    · obtain ⟨n, hn⟩ := Option.isSome_iff_exists.mp ((hwf g).1.mp hw)
      rw [if_pos hw] at h
      simp only [Bind.bind, Except.bind, Except.ok.injEq] at h
      subst h
      show alookup (aupdate st.row_counts g fun n => n + 1) g = _
      rw [alookup_aupdate_self, hn]
      rfl
    · have hnone : alookup st.row_counts g = Option.none := by
        cases hcase : alookup st.row_counts g with
        | none => rfl
        | some v => exact absurd ((hwf g).1.mpr (by rw [hcase]; rfl)) hw
      rw [if_neg hw] at h
      by_cases he : env.ensureOk g
      · rw [if_pos he] at h
        simp only [Bind.bind, Except.bind, Except.ok.injEq] at h
        subst h
        show alookup (aupdate (st.row_counts ++ [(g, 1)]) g fun n => n + 1) g
          = _
        rw [alookup_aupdate_self, alookup_append_self st.row_counts g 1 hnone,
          hnone]
        rfl
      · rw [if_neg he] at h
        simp only [Bind.bind, Except.bind] at h
        exact absurd h (by simp)
  exact ⟨hself,
    WF_extend g st st' _ hwr hself (Nat.le_add_left 1 _) hother hwf⟩

/-! ## Effects of the per-row fan-out loop -/

theorem matchCount_nil (env : Env) (c : Nat) (g : String) :
    matchCount env c [] g = 0 := rfl

theorem matchCount_cons (env : Env) (c : Nat) (r : Row) (rs : List Row)
    (g : String) :
    matchCount env c (r :: rs) g =
      (if g ∈ env.resolve c (rowCity r) then 1 else 0) +
        matchCount env (c + 1) rs g := rfl

theorem foldWrite_basic (env : Env) (row : Row) :
    ∀ (gs : List String) (st st' : State),
    gs.foldlM (fun s g => writeToGroup env s row g) st = Except.ok st' →
    st'.unmatched_cities = st.unmatched_cities ∧
    st'.callIdx = st.callIdx ∧
    (∀ g', g' ∈ st'.writers ↔ g' ∈ st.writers ∨ g' ∈ gs) := by
  intro gs
  induction gs with
  | nil =>
    intro st st' h
    simp only [List.foldlM, pure, Except.pure, Except.ok.injEq] at h
    subst h
    simp
  | cons g0 gs ih =>
    intro st st' h
    simp only [List.foldlM] at h
    cases hw : writeToGroup env st row g0 with
    | error e =>
      rw [hw] at h
      simp [Bind.bind, Except.bind] at h
    | ok st1 =>
      rw [hw] at h
      simp only [Bind.bind, Except.bind] at h
      obtain ⟨hun1, hci1, hwr1, -⟩ := writeToGroup_ok_basic env st row g0 st1 hw
      obtain ⟨hun2, hci2, hwr2⟩ := ih st1 st' h
      refine ⟨hun2.trans hun1, hci2.trans hci1, ?_⟩
      intro g'
      rw [hwr2 g', hwr1 g']
      simp [List.mem_cons]
      tauto

theorem foldWrite_wf (env : Env) (row : Row) :
    ∀ (gs : List String) (st st' : State), WF st →
    gs.foldlM (fun s g => writeToGroup env s row g) st = Except.ok st' →
    WF st' := by
  intro gs
  induction gs with
  | nil =>
    intro st st' hwf h
    simp only [List.foldlM, pure, Except.pure, Except.ok.injEq] at h
    subst h
    exact hwf
  | cons g0 gs ih =>
    intro st st' hwf h
    simp only [List.foldlM] at h
    cases hw : writeToGroup env st row g0 with
    | error e =>
      rw [hw] at h
      simp [Bind.bind, Except.bind] at h
    | ok st1 =>
      rw [hw] at h
      simp only [Bind.bind, Except.bind] at h
      exact ih st1 st' (writeToGroup_ok_cnt env st row g0 st1 hwf hw).2 h

theorem foldWrite_notmem (env : Env) (row : Row) (g : String) :
    ∀ (gs : List String) (st st' : State), g ∉ gs →
    gs.foldlM (fun s g => writeToGroup env s row g) st = Except.ok st' →
    alookup st'.row_counts g = alookup st.row_counts g := by
  intro gs
  induction gs with
  | nil =>
    intro st st' _ h
    simp only [List.foldlM, pure, Except.pure, Except.ok.injEq] at h
    subst h
    rfl
  | cons g0 gs ih =>
    intro st st' hnm h
    simp only [List.foldlM] at h
    cases hw : writeToGroup env st row g0 with
    | error e =>
      rw [hw] at h
      simp [Bind.bind, Except.bind] at h
    | ok st1 =>
      rw [hw] at h
      simp only [Bind.bind, Except.bind] at h
      obtain ⟨-, -, -, hother⟩ := writeToGroup_ok_basic env st row g0 st1 hw
      have hne : g ≠ g0 := fun e => hnm (e ▸ List.mem_cons_self g0 gs)
      have hgs : g ∉ gs := fun e => hnm (List.mem_cons_of_mem g0 e)
      rw [ih st1 st' hgs h, hother g hne]

theorem foldWrite_cnt (env : Env) (row : Row) :
    ∀ (gs : List String) (st st' : State), gs.Nodup → WF st →
    gs.foldlM (fun s g => writeToGroup env s row g) st = Except.ok st' →
    ∀ g, alookup st'.row_counts g =
      if g ∈ gs then some ((alookup st.row_counts g).getD 1 + 1)
      else alookup st.row_counts g := by
  intro gs
  induction gs with
  | nil =>
    intro st st' _ _ h g
    simp only [List.foldlM, pure, Except.pure, Except.ok.injEq] at h
    subst h
    simp
  | cons g0 gs ih =>
    intro st st' hnd hwf h g
    simp only [List.foldlM] at h
    cases hw : writeToGroup env st row g0 with
    | error e =>
      rw [hw] at h
      simp [Bind.bind, Except.bind] at h
    | ok st1 =>
      rw [hw] at h
      simp only [Bind.bind, Except.bind] at h
      obtain ⟨hg0, hndgs⟩ := List.nodup_cons.mp hnd
      obtain ⟨hself, hwf1⟩ := writeToGroup_ok_cnt env st row g0 st1 hwf hw
      obtain ⟨-, -, -, hother⟩ := writeToGroup_ok_basic env st row g0 st1 hw
      by_cases hg : g = g0
      · subst hg
        rw [foldWrite_notmem env row g gs st1 st' hg0 h, hself,
          if_pos (List.mem_cons_self g gs)]
      · rw [ih st1 st' hndgs hwf1 h g]
        by_cases hgs : g ∈ gs
        · rw [if_pos hgs, if_pos (List.mem_cons_of_mem g0 hgs), hother g hg]
        · rw [if_neg hgs, if_neg (by simp [List.mem_cons, hg, hgs]),
            hother g hg]

/-! ## Per-row and whole-loop invariants -/

theorem processRow_destruct (env : Env) (st : State) (row : Row)
    (st' : State) (h : processRow env st row = Except.ok st') :
    (env.resolve st.callIdx (rowCity row)).foldlM
      (fun s g => writeToGroup env s row g)
      (midState env st row) = Except.ok st' := h

theorem processRow_ok (env : Env) (st : State) (row : Row) (st' : State)
    (h : processRow env st row = Except.ok st') :
    st'.callIdx = st.callIdx + 1 ∧
    (st'.unmatched_cities =
      if (env.resolve st.callIdx (rowCity row)).isEmpty ∧
          (rowCity row).truthy then
        insertNew st.unmatched_cities (rowCity row)
      else st.unmatched_cities) ∧
    (∀ g', g' ∈ st'.writers ↔
      g' ∈ st.writers ∨ g' ∈ env.resolve st.callIdx (rowCity row)) := by
  obtain ⟨hun, hci, hwr⟩ :=
    foldWrite_basic env row (env.resolve st.callIdx (rowCity row))
      (midState env st row) st' (processRow_destruct env st row st' h)
  exact ⟨hci, hun, hwr⟩

theorem processRow_wf (env : Env) (st : State) (row : Row) (st' : State)
    (hwf : WF st) (h : processRow env st row = Except.ok st') : WF st' :=
  foldWrite_wf env row (env.resolve st.callIdx (rowCity row))
    (midState env st row) st' hwf (processRow_destruct env st row st' h)

theorem processRow_cnt (env : Env) (st : State) (row : Row) (st' : State)
    (hwf : WF st) (hnd : (env.resolve st.callIdx (rowCity row)).Nodup)
    (h : processRow env st row = Except.ok st') :
    ∀ g, alookup st'.row_counts g =
      if g ∈ env.resolve st.callIdx (rowCity row)
      then some ((alookup st.row_counts g).getD 1 + 1)
      else alookup st.row_counts g :=
  foldWrite_cnt env row (env.resolve st.callIdx (rowCity row))
    (midState env st row) st' hnd hwf (processRow_destruct env st row st' h)

theorem processAll_wf (env : Env) :
    ∀ (rows : List Row) (st st' : State), WF st →
    processAll env st rows = Except.ok st' → WF st' := by
  intro rows
  induction rows with
  | nil =>
    intro st st' hwf h
    simp only [processAll, List.foldlM, pure, Except.pure,
      Except.ok.injEq] at h
    subst h
    exact hwf
  | cons r rs ih =>
    intro st st' hwf h
    simp only [processAll, List.foldlM] at h
    cases hr : processRow env st r with
    | error e =>
      rw [hr] at h
      simp [Bind.bind, Except.bind] at h
    | ok st1 =>
      rw [hr] at h
      simp only [Bind.bind, Except.bind] at h
      exact ih st1 st' (processRow_wf env st r st1 hwf hr) h

theorem processAll_cnt (env : Env)
    (hres : ∀ i c, (env.resolve i c).Nodup) :
    ∀ (rows : List Row) (st st' : State), WF st →
    processAll env st rows = Except.ok st' →
    st'.callIdx = st.callIdx + rows.length ∧
    ∀ g, (∀ n, alookup st.row_counts g = some n →
            alookup st'.row_counts g =
              some (n + matchCount env st.callIdx rows g)) ∧
         (alookup st.row_counts g = Option.none →
            alookup st'.row_counts g =
              if matchCount env st.callIdx rows g = 0 then Option.none
              else some (1 + matchCount env st.callIdx rows g)) := by
  intro rows
  induction rows with
  | nil =>
    intro st st' _ h
    simp only [processAll, List.foldlM, pure, Except.pure,
      Except.ok.injEq] at h
    subst h
    refine ⟨rfl, ?_⟩
    intro g
    constructor
    · intro n hn
      rw [hn, matchCount_nil]
      rfl
    · intro hn
      rw [hn, matchCount_nil]
      rfl
  | cons r rs ih =>
    intro st st' hwf h
    simp only [processAll, List.foldlM] at h
    cases hr : processRow env st r with
    | error e =>
      rw [hr] at h
      simp [Bind.bind, Except.bind] at h
    | ok st1 =>
      rw [hr] at h
      simp only [Bind.bind, Except.bind] at h
      have hwf1 : WF st1 := processRow_wf env st r st1 hwf hr
      have hcnt1 := processRow_cnt env st r st1 hwf (hres _ _) hr
      obtain ⟨hci1, -, -⟩ := processRow_ok env st r st1 hr
      obtain ⟨hci, hcnt⟩ := ih st1 st' hwf1 h
      rw [hci1] at hci
      refine ⟨by rw [hci, List.length_cons]; omega, ?_⟩
      intro g
      have hstep := hcnt1 g
      obtain ⟨hsome, hnone⟩ := hcnt g
      rw [hci1] at hsome hnone
      constructor
      · intro n hn
        rw [matchCount_cons]
        by_cases hmem : g ∈ env.resolve st.callIdx (rowCity r)
        · rw [if_pos hmem] at hstep ⊢
          rw [hn] at hstep
          have := hsome (n + 1) (by rw [hstep]; rfl)
          rw [this]
          exact congrArg some (by omega)
        · rw [if_neg hmem] at hstep ⊢
          rw [hn] at hstep
          have := hsome n hstep
          rw [this]
          exact congrArg some (by omega)
      · intro hn
        rw [matchCount_cons]
        by_cases hmem : g ∈ env.resolve st.callIdx (rowCity r)
        · rw [if_pos hmem] at hstep ⊢
          rw [hn] at hstep
          have := hsome 2 (by rw [hstep]; rfl)
          rw [this]
          have hne : 1 + matchCount env (st.callIdx + 1) rs g ≠ 0 := by
            omega
          rw [if_neg hne]
          exact congrArg some (by omega)
        · rw [if_neg hmem] at hstep ⊢
          rw [hn] at hstep
          have := hnone hstep
          rw [this, Nat.zero_add]

/-! ## Shape of errors and of the two run outcomes -/

theorem ensureGroupWriter_error (env : Env) (st : State) (g : String)
    (e : String) (h : ensureGroupWriter env st g = Except.error e) :
    e = "cannot create workbook for group " ++ g := by
  unfold ensureGroupWriter at h
  by_cases hw : g ∈ st.writers
  · rw [if_pos hw] at h
    exact absurd h (by simp)
  · rw [if_neg hw] at h
    by_cases he : env.ensureOk g
    · rw [if_pos he] at h
      exact absurd h (by simp)
    · rw [if_neg he] at h
      injection h with h
      exact h.symm

theorem writeToGroup_error (env : Env) (st : State) (row : Row) (g : String)
    (e : String) (h : writeToGroup env st row g = Except.error e) :
    e = "cannot create workbook for group " ++ g := by
  unfold writeToGroup at h
  cases hw : ensureGroupWriter env st g with
  | error e' =>
    rw [hw] at h
    simp only [Bind.bind, Except.bind] at h
    injection h with h
    subst h
    exact ensureGroupWriter_error env st g e' hw
  | ok s =>
    rw [hw] at h
    simp only [Bind.bind, Except.bind] at h
    exact absurd h (by simp)

theorem foldWrite_error (env : Env) (row : Row) :
    ∀ (gs : List String) (st : State) (e : String),
    gs.foldlM (fun s g => writeToGroup env s row g) st = Except.error e →
    ∃ g, e = "cannot create workbook for group " ++ g := by
  intro gs
  induction gs with
  | nil =>
    intro st e h
    simp [List.foldlM, pure, Except.pure] at h
  | cons g0 gs ih =>
    intro st e h
    simp only [List.foldlM] at h
    cases hw : writeToGroup env st row g0 with
    | error e' =>
      rw [hw] at h
      simp only [Bind.bind, Except.bind] at h
      injection h with h
      subst h
      exact ⟨g0, writeToGroup_error env st row g0 e' hw⟩
    | ok st1 =>
      rw [hw] at h
      simp only [Bind.bind, Except.bind] at h
      exact ih st1 e h

theorem processRow_error (env : Env) (st : State) (row : Row) (e : String)
    (h : processRow env st row = Except.error e) :
    ∃ g, e = "cannot create workbook for group " ++ g :=
  foldWrite_error env row (env.resolve st.callIdx (rowCity row))
    (midState env st row) e h

theorem processAll_error (env : Env) :
    ∀ (rows : List Row) (st : State) (e : String),
    processAll env st rows = Except.error e →
    ∃ g, e = "cannot create workbook for group " ++ g := by
  intro rows
  induction rows with
  | nil =>
    intro st e h
    simp [processAll, List.foldlM, pure, Except.pure] at h
  | cons r rs ih =>
    intro st e h
    simp only [processAll, List.foldlM] at h
    cases hr : processRow env st r with
    | error e' =>
      rw [hr] at h
      simp only [Bind.bind, Except.bind] at h
      injection h with h
      subst h
      exact processRow_error env st r e' hr
    | ok st1 =>
      rw [hr] at h
      simp only [Bind.bind, Except.bind] at h
      exact ih st1 e h

theorem errorMsg_ne_empty (g : String) :
    "cannot create workbook for group " ++ g ≠ "" := by
  intro h
  have hl := congrArg String.length h
  rw [String.length_append] at hl
  have h1 : ("cannot create workbook for group ").length = 33 := rfl
  have h2 : ("" : String).length = 0 := rfl
  omega

theorem run_none_eq (env : Env) :
    run env Option.none = mkFailure "No such file or directory" := rfl

theorem run_some_ok (env : Env) (rows : List Row) (st : State)
    (h : processAll env initState rows = Except.ok st) :
    run env (some rows) = finalize env st rows.length := by
  simp only [run]
  rw [h]

theorem run_some_error (env : Env) (rows : List Row) (e : String)
    (h : processAll env initState rows = Except.error e) :
    run env (some rows) = mkFailure e := by
  simp only [run]
  rw [h]

/-! ## Finalize lemmas -/

theorem finalize_output_files (env : Env) (st : State) (processed : Nat) :
    (finalize env st processed).output_files =
      st.writers.filterMap
        (fun g => if env.closeOk g then some (g, outputEntry env st g)
                  else Option.none) := rfl

theorem finalize_success (env : Env) (st : State) (processed : Nat) :
    (finalize env st processed).success = true := rfl

theorem finalize_stats (env : Env) (st : State) (processed : Nat) :
    (finalize env st processed).stats = some st.row_counts := rfl

theorem finalize_output_mem (env : Env) (st : State) (processed : Nat)
    (g : String) (info : OutputFileInfo)
    (h : (g, info) ∈ (finalize env st processed).output_files) :
    g ∈ st.writers ∧ env.closeOk g = true ∧ info = outputEntry env st g := by
  rw [finalize_output_files, List.mem_filterMap] at h
  obtain ⟨g', hg', hf⟩ := h
  by_cases hc : env.closeOk g'
  · rw [if_pos hc] at hf
    injection hf with hf
    have h1 : g' = g := congrArg Prod.fst hf
    have h2 : outputEntry env st g' = info := congrArg Prod.snd hf
    subst h1
    exact ⟨hg', hc, h2.symm⟩
  · rw [if_neg hc] at hf
    exact absurd hf (by simp)

theorem finalize_output_mem_of (env : Env) (st : State) (processed : Nat)
    (g : String) (hg : g ∈ st.writers) (hc : env.closeOk g = true) :
    (g, outputEntry env st g) ∈ (finalize env st processed).output_files := by
  rw [finalize_output_files, List.mem_filterMap]
  exact ⟨g, hg, by rw [if_pos hc]⟩

theorem run_total_of_success (env : Env) (rows : List Row)
    (h : (run env (some rows)).success = true) :
    (run env (some rows)).total_rows = rows.length := by
  cases hpa : processAll env initState rows with
  | error e =>
    rw [run_some_error env rows e hpa] at h
    exact absurd h (by simp [mkFailure])
  | ok st =>
    rw [run_some_ok env rows st hpa]
    rfl

/-! ## Claims -/

/-- C1 counterexample: under `envWriterFail` only the creation of group B's
workbook fails, yet the run does not complete with a success RunResult —
it aborts with `success = false` and group A (row 1's destination) is never
written, refuting the claimed isolation of WriterErrors during the run. -/
theorem c1_counterexample :
    envWriterFail.ensureOk "B" = false ∧
    envWriterFail.ensureOk "A" = true ∧
    (run envWriterFail (some rowsWriterFail)).success = false ∧
    (run envWriterFail (some rowsWriterFail)).output_files = [] :=
  ⟨rfl, rfl, rfl, rfl⟩

/-- C1 (amended): a WriterError while creating or writing a group's output
during the row loop is not isolated — it propagates to the top-level
handler, so the run aborts with the failure RunResult carrying that error
(`success = false`, empty `output_files`), and neither the remaining rows
nor the other groups are processed. -/
theorem c1_theorem (env : Env) (rows : List Row) (e : String)
    (h : processAll env initState rows = Except.error e) :
    run env (some rows) = mkFailure e ∧
    (run env (some rows)).success = false ∧
    (run env (some rows)).output_files = [] := by
  rw [run_some_error env rows e h]
  exact ⟨rfl, rfl, rfl⟩

/-- Witness for C1 at the concrete failing environment. -/
theorem c1_witness :
    run envWriterFail (some rowsWriterFail) =
      mkFailure "cannot create workbook for group B" :=
  (c1_theorem envWriterFail rowsWriterFail
    "cannot create workbook for group B" rfl).1

/-- C2 counterexample: a row of length 1 has an absent key (`None`), yet
the engine still performs the resolver lookup and writes the row to group
G when the resolver claims it, so the row is written to a group's output
and counted as matched — refuting the claimed lookup skip. -/
theorem c2_counterexample :
    rowCity [Cell.num 1] = Cell.none ∧
    alookup (run envAbsentKey (some [[Cell.num 1]])).output_files "G" =
      some { filename := "G.xlsx", path := "out/G.xlsx", row_count := 1 } ∧
    (run envAbsentKey (some [[Cell.num 1]])).matched_rows = some 1 :=
  ⟨rfl, rfl, rfl⟩

/-- C2 (amended): for a row whose key is absent or empty, the resolver is
still queried (with the absent key — the call counter advances), the key
is never placed in `unmatched_cities`, and the row is written to exactly
the groups that resolver call returns; the row still counts once in
`total_rows` (on success, `total_rows` is the number of data rows). -/
theorem c2_theorem :
    (∀ (env : Env) (st : State) (row : Row) (st' : State),
      (rowCity row).truthy = false →
      processRow env st row = Except.ok st' →
      st'.unmatched_cities = st.unmatched_cities ∧
      st'.callIdx = st.callIdx + 1 ∧
      (∀ g, g ∈ st'.writers ↔
        g ∈ st.writers ∨ g ∈ env.resolve st.callIdx (rowCity row))) ∧
    (∀ (env : Env) (rows : List Row),
      (run env (some rows)).success = true →
      (run env (some rows)).total_rows = rows.length) := by
  constructor
  · intro env st row st' hkey h
    obtain ⟨hci, hun, hwr⟩ := processRow_ok env st row st' h
    refine ⟨?_, hci, hwr⟩
    rw [hun, if_neg (by simp [hkey])]
  · exact run_total_of_success

/-- Witness for C2 at the concrete absent-key row. -/
theorem c2_witness :
    stAbsent.unmatched_cities = initState.unmatched_cities ∧
    (run envAbsentKey (some [[Cell.num 1]])).total_rows = 1 :=
  ⟨(c2_theorem.1 envAbsentKey initState [Cell.num 1] stAbsent rfl rfl).1,
   c2_theorem.2 envAbsentKey [[Cell.num 1]] rfl⟩

/-- C3 counterexample: the failure RunResult built by `run` contains no
`matched_rows`, `unmatched_cities` or `stats` keys, refuting the claim
that every RunResult contains all listed fields. -/
theorem c3_counterexample :
    (run envAbsentKey Option.none).matched_rows = Option.none ∧
    (run envAbsentKey Option.none).unmatched_cities = Option.none ∧
    (run envAbsentKey Option.none).stats = Option.none :=
  ⟨rfl, rfl, rfl⟩

/-- C3 (amended): a success RunResult contains success, total_rows,
matched_rows, output_files, unmatched_cities and stats (and no error key);
a failure RunResult contains success, error, total_rows and output_files
only — matched_rows, unmatched_cities and stats are absent. -/
theorem c3_theorem (env : Env) (input : Option (List Row)) :
    ((run env input).success = true →
      (run env input).matched_rows.isSome = true ∧
      (run env input).unmatched_cities.isSome = true ∧
      (run env input).stats.isSome = true ∧
      (run env input).error = Option.none) ∧
    ((run env input).success = false →
      (run env input).error.isSome = true ∧
      (run env input).matched_rows = Option.none ∧
      (run env input).unmatched_cities = Option.none ∧
      (run env input).stats = Option.none) := by
  cases input with
  | none =>
    rw [run_none_eq]
    exact ⟨fun h => absurd h (by simp [mkFailure]),
      fun _ => ⟨rfl, rfl, rfl, rfl⟩⟩
  | some rows =>
    cases hpa : processAll env initState rows with
    | error e =>
      rw [run_some_error env rows e hpa]
      exact ⟨fun h => absurd h (by simp [mkFailure]),
        fun _ => ⟨rfl, rfl, rfl, rfl⟩⟩
    | ok st =>
      rw [run_some_ok env rows st hpa]
      refine ⟨fun _ => ⟨rfl, rfl, rfl, rfl⟩, fun h => ?_⟩
      rw [finalize_success] at h
      exact absurd h (by simp)

/-- Witness for C3 at a success run and at a failure run. -/
theorem c3_witness :
    (run envScenario (some rowsScenario)).error = Option.none ∧
    (run envScenario Option.none).error.isSome = true :=
  ⟨((c3_theorem envScenario (some rowsScenario)).1 rfl).2.2.2,
   ((c3_theorem envScenario Option.none).2 rfl).1⟩

/-- C4: for every group g present in the success result's output_files
(exactly the groups that received at least one row), the reported
row_count equals the number of input rows whose resolved group set
contains g, and the group's final cursor in stats is row_count + 1
(cursor starts at 1 after the header and advances by 1 per written row). -/
theorem c4_theorem (env : Env) (rows : List Row) (g : String)
    (info : OutputFileInfo)
    (hres : ∀ i c, (env.resolve i c).Nodup)
    (hmem : (g, info) ∈ (run env (some rows)).output_files) :
    info.row_count = matchCount env 0 rows g ∧
    statsLookup (run env (some rows)) g = some (info.row_count + 1) := by
  cases hpa : processAll env initState rows with
  | error e =>
    rw [run_some_error env rows e hpa] at hmem
    exact absurd hmem (by simp [mkFailure])
  | ok st =>
    rw [run_some_ok env rows st hpa] at hmem ⊢
    obtain ⟨hw, hc, hinfo⟩ := finalize_output_mem env st rows.length g info hmem
    have hwf : WF st := processAll_wf env rows initState st wf_initState hpa
    obtain ⟨hci, hcnt⟩ := processAll_cnt env hres rows initState st
      wf_initState hpa
    have hinit : alookup initState.row_counts g = Option.none := rfl
    have hlook : alookup st.row_counts g =
        if matchCount env 0 rows g = 0 then Option.none
        else some (1 + matchCount env 0 rows g) := (hcnt g).2 hinit
    have hsome : (alookup st.row_counts g).isSome = true := (hwf g).1.mp hw
    by_cases h0 : matchCount env 0 rows g = 0
    · rw [if_pos h0] at hlook
      rw [hlook] at hsome
      exact absurd hsome (by simp)
    · rw [if_neg h0] at hlook
      subst hinfo
      have hrc : (outputEntry env st g).row_count =
          matchCount env 0 rows g := by
        show (alookup st.row_counts g).getD 0 - 1 = _
        rw [hlook]
        show 1 + matchCount env 0 rows g - 1 = _
        omega
      refine ⟨hrc, ?_⟩
      show alookup st.row_counts g = some ((outputEntry env st g).row_count + 1)
      rw [hlook, hrc]
      exact congrArg some (by omega)

/-- Witness for C4: group EU of the scenario reports 2 rows, the number of
scenario rows resolving to EU, and its stats cursor is 3. -/
theorem c4_witness :
    euInfo.row_count = matchCount envScenario 0 rowsScenario "EU" ∧
    statsLookup (run envScenario (some rowsScenario)) "EU" =
      some (euInfo.row_count + 1) :=
  c4_theorem envScenario rowsScenario "EU" euInfo
    (by
      intro i c
      rcases i with _ | _ | _ | i
      · exact (by decide : (["EU"] : List String).Nodup)
      · exact (by decide : ([] : List String).Nodup)
      · exact (by decide : (["EU", "VIP"] : List String).Nodup)
      · exact (by decide : ([] : List String).Nodup))
    (by decide)

/-- C5: on every success RunResult, total_rows equals the number of data
rows of the input (the counter advances exactly once per row). -/
theorem c5_theorem (env : Env) (rows : List Row)
    (h : (run env (some rows)).success = true) :
    (run env (some rows)).total_rows = rows.length :=
  run_total_of_success env rows h

/-- Witness for C5 at the three-row scenario. -/
theorem c5_witness :
    (run envScenario (some rowsScenario)).success = true ∧
    (run envScenario (some rowsScenario)).total_rows = 3 :=
  ⟨rfl, c5_theorem envScenario rowsScenario rfl⟩

/-- C6: the three-row scenario returns total_rows 3, row_count 2 for EU,
row_count 1 for VIP, unmatched key Lagos only, and matched_rows 3 (the
matched counter advances once per destination write). -/
theorem c6_theorem :
    (run envScenario (some rowsScenario)).total_rows = 3 ∧
    alookup (run envScenario (some rowsScenario)).output_files "EU" =
      some euInfo ∧
    alookup (run envScenario (some rowsScenario)).output_files "VIP" =
      some vipInfo ∧
    (run envScenario (some rowsScenario)).unmatched_cities =
      some [Cell.str "Lagos"] ∧
    (run envScenario (some rowsScenario)).matched_rows = some 3 :=
  ⟨rfl, rfl, rfl, rfl, rfl⟩

/-- C7: ensuring the writer of a group that already has one is the
identity — the second `_ensure_group_writer` call returns the state
unchanged, so no second output target is created and no cursor, row count
or written header is reset. -/
theorem c7_theorem (env : Env) (st : State) (g : String) (st' : State)
    (h : ensureGroupWriter env st g = Except.ok st') :
    ensureGroupWriter env st' g = Except.ok st' := by
  have hmem : g ∈ st'.writers := by
    unfold ensureGroupWriter at h
    by_cases hw : g ∈ st.writers
    · rw [if_pos hw] at h
      injection h with h
      subst h
      exact hw
    · rw [if_neg hw] at h
      by_cases he : env.ensureOk g
      · rw [if_pos he] at h
        injection h with h
        subst h
        simp
      · rw [if_neg he] at h
        exact absurd h (by simp)
  unfold ensureGroupWriter
  rw [if_pos hmem]

/-- Witness for C7: a second ensure for group EU right after its creation
returns the same state. -/
theorem c7_witness :
    ensureGroupWriter envScenario stEnsured "EU" = Except.ok stEnsured :=
  c7_theorem envScenario initState "EU" stEnsured rfl

/-- C8: a run that fails before finalize (for example because the input
file is missing) returns the failure RunResult: success false, total_rows
0, empty output_files and a non-empty error message. -/
theorem c8_theorem (env : Env) (input : Option (List Row)) :
    (input = Option.none → (run env input).success = false) ∧
    ((run env input).success = false →
      (run env input).total_rows = 0 ∧
      (run env input).output_files = [] ∧
      ∃ e, (run env input).error = some e ∧ e ≠ "") := by
  cases input with
  | none =>
    exact ⟨fun _ => rfl,
      fun _ => ⟨rfl, rfl, "No such file or directory", rfl, by decide⟩⟩
  | some rows =>
    refine ⟨fun hcon => absurd hcon (by simp), ?_⟩
    intro hf
    cases hpa : processAll env initState rows with
    | ok st =>
      rw [run_some_ok env rows st hpa, finalize_success] at hf
      exact absurd hf (by simp)
    | error e =>
      rw [run_some_error env rows e hpa]
      obtain ⟨g, hg⟩ := processAll_error env rows initState e hpa
      refine ⟨rfl, rfl, e, rfl, ?_⟩
      rw [hg]
      exact errorMsg_ne_empty g

/-- Witness for C8 at a missing input file. -/
theorem c8_witness :
    (run envScenario Option.none).success = false ∧
    (run envScenario Option.none).total_rows = 0 ∧
    (run envScenario Option.none).output_files = [] :=
  ⟨(c8_theorem envScenario Option.none).1 rfl,
   ((c8_theorem envScenario Option.none).2
     ((c8_theorem envScenario Option.none).1 rfl)).1,
   ((c8_theorem envScenario Option.none).2
     ((c8_theorem envScenario Option.none).1 rfl)).2.1⟩

/-- C9: in a success RunResult, stats maps every group whose writer was
created to its final cursor; in particular, for every group in
output_files the stats entry is row_count + 1. -/
theorem c9_theorem (env : Env) (rows : List Row) :
    (∀ g info, (g, info) ∈ (run env (some rows)).output_files →
      statsLookup (run env (some rows)) g = some (info.row_count + 1)) ∧
    (∀ st, processAll env initState rows = Except.ok st →
      (run env (some rows)).stats = some st.row_counts ∧
      ∀ g, g ∈ st.writers →
        (statsLookup (run env (some rows)) g).isSome = true) := by
  constructor
  · intro g info hmem
    cases hpa : processAll env initState rows with
    | error e =>
      rw [run_some_error env rows e hpa] at hmem
      exact absurd hmem (by simp [mkFailure])
    | ok st =>
      rw [run_some_ok env rows st hpa] at hmem ⊢
      obtain ⟨hw, hc, hinfo⟩ :=
        finalize_output_mem env st rows.length g info hmem
      have hwf : WF st := processAll_wf env rows initState st wf_initState hpa
      obtain ⟨v, hv⟩ := Option.isSome_iff_exists.mp ((hwf g).1.mp hw)
      have hge : 1 ≤ v := (hwf g).2 v hv
      subst hinfo
      show alookup st.row_counts g = some ((outputEntry env st g).row_count + 1)
      rw [hv]
      refine congrArg some ?_
      show v = (alookup st.row_counts g).getD 0 - 1 + 1
      rw [hv]
      show v = v - 1 + 1
      omega
  · intro st hpa
    rw [run_some_ok env rows st hpa]
    refine ⟨rfl, ?_⟩
    intro g hg
    have hwf : WF st := processAll_wf env rows initState st wf_initState hpa
    show (alookup st.row_counts g).isSome = true
    exact (hwf g).1.mp hg

/-- Witness for C9: the scenario's stats entry for EU is its row count 2
plus 1. -/
theorem c9_witness :
    statsLookup (run envScenario (some rowsScenario)) "EU" =
      some (euInfo.row_count + 1) :=
  (c9_theorem envScenario rowsScenario).1 "EU" euInfo (by decide)

/-- C10: when closing one group's workbook fails during finalize, the
run still returns success with no error, the failing group is omitted
from output_files while staying in stats, and every other group whose
close succeeds is still closed and reported in output_files. -/
theorem c10_theorem (env : Env) (rows : List Row) (st : State) (g : String)
    (hok : processAll env initState rows = Except.ok st)
    (hmem : g ∈ st.writers) (hfail : env.closeOk g = false) :
    (run env (some rows)).success = true ∧
    (run env (some rows)).error = Option.none ∧
    (∀ info, (g, info) ∉ (run env (some rows)).output_files) ∧
    (statsLookup (run env (some rows)) g).isSome = true ∧
    (∀ g', g' ∈ st.writers → env.closeOk g' = true →
      (g', outputEntry env st g') ∈ (run env (some rows)).output_files) := by
  rw [run_some_ok env rows st hok]
  refine ⟨rfl, rfl, ?_, ?_, ?_⟩
  · intro info hmem'
    obtain ⟨-, hc, -⟩ := finalize_output_mem env st rows.length g info hmem'
    rw [hfail] at hc
    exact absurd hc (by simp)
  · have hwf : WF st := processAll_wf env rows initState st wf_initState hok
    show (alookup st.row_counts g).isSome = true
    exact (hwf g).1.mp hmem
  · intro g' hg' hc
    exact finalize_output_mem_of env st rows.length g' hg' hc

/-- Witness for C10: with EU's close failing, the scenario run still
succeeds, EU is missing from output_files yet present in stats, and VIP
is still closed and reported. -/
theorem c10_witness :
    (run envCloseFail (some rowsScenario)).success = true ∧
    (run envCloseFail (some rowsScenario)).error = Option.none ∧
    ("EU", outputEntry envCloseFail stScenario "EU") ∉
      (run envCloseFail (some rowsScenario)).output_files ∧
    (statsLookup (run envCloseFail (some rowsScenario)) "EU").isSome = true ∧
    ("VIP", outputEntry envCloseFail stScenario "VIP") ∈
      (run envCloseFail (some rowsScenario)).output_files :=
  have h := c10_theorem envCloseFail rowsScenario stScenario "EU" rfl
    (by decide) rfl
  ⟨h.1, h.2.1, h.2.2.1 (outputEntry envCloseFail stScenario "EU"),
   h.2.2.2.1, h.2.2.2.2 "VIP" (by decide) rfl⟩
